import Mathlib

/-!
Verification development for the Detectolhat webcam classifier front-end.

The embedding models the orchestrator component (`src/App.tsx`) and the
renderer helper (`src/components/PredictionBar.tsx`) as pure Lean functions.
Asynchronous host interactions (model load, camera permission, per-frame
inference) are parameterised by explicit outcome values; React state cells
and the mutable refs are gathered into one `AppState` record, and each
handler becomes a state-transition function.  Probabilities are modelled as
exact rationals.
-/

namespace Detectolhat

/-- A prediction pair as produced by the model and consumed by the UI
(the `Prediction` type of `src/types`, used in `App.tsx` and
`PredictionBar.tsx`). -/
structure Prediction where
  className : String
  probability : ℚ
deriving DecidableEq, Repr

/-- A media track of a camera stream; `stopped` records whether
`track.stop()` has been called on it. -/
structure MediaTrack where
  id : Nat
  stopped : Bool
deriving DecidableEq, Repr

/-- The camera stream attached as `videoRef.current.srcObject`: a
collection of media tracks (`stream.getTracks()`). -/
structure CamStream where
  tracks : List MediaTrack
deriving DecidableEq, Repr

/-- The model handle stored in `modelRef.current`; the only capability that
feeds UI state is `getClassLabels()` (per-frame `predict` results enter as
explicit outcomes). -/
structure ModelHandle where
  classLabels : List String
deriving DecidableEq, Repr

/-- The orchestrator state of `App.tsx`: the five `useState` cells
(`isLoadingModel`, `isStartingWebcam`, `webcamActive`, `predictions`,
`error`), the `modelRef` and `requestAnimationFrameRef` refs (a pending
animation-frame id, `0` meaning none, matching the ref's initial value and
its JS truthiness test), and the stream attached to the video element. -/
structure AppState where
  isLoadingModel : Bool
  isStartingWebcam : Bool
  webcamActive : Bool
  predictions : List Prediction
  error : Option String
  modelRef : Option ModelHandle
  videoStream : Option CamStream
  rafId : Nat
deriving DecidableEq, Repr

/-- Error message set by `loadModel` when the global `tmImage` / `tf`
capabilities are missing (`App.tsx` line 30). -/
def depsErrorMsg : String :=
  "Required AI libraries not loaded. Please check your internet connection and refresh."

/-- Error message set by `loadModel` when the load itself fails
(`App.tsx` line 48). -/
def modelErrorMsg : String :=
  "Could not load the AI model. Please check your connection and try again."

/-- Error message set by `startWebcam` on camera failure
(`App.tsx` line 71). -/
def captureErrorMsg : String :=
  "Could not access the camera. Please grant permission and try again."

/-- Outcome of the awaited `window.tmImage.load(modelURL, metadataURL)`
call: a resolved model handle, or a rejection. -/
inductive LoadOutcome where
  | success (model : ModelHandle)
  | failure
deriving DecidableEq, Repr

/-- `loadModel` from `App.tsx` lines 27-52.  `tmImagePresent` and
`tfPresent` model the truthiness of `window.tmImage` and `window.tf`; the
awaited load call is parameterised by `outcome`.  On the dependency-missing
branch it sets the dedicated error and clears the loading flag; on success
it stores the handle and publishes one zero-probability entry per class
label; on failure it sets the model-load error; the loading flag is cleared
on every path (the `finally` block). -/
def loadModel (tmImagePresent tfPresent : Bool) (outcome : LoadOutcome)
    (s : AppState) : AppState :=
  if !tmImagePresent || !tfPresent then
    { s with error := some depsErrorMsg, isLoadingModel := false }
  else
    match outcome with
    | .success model =>
      { s with
        modelRef := some model,
        predictions := model.classLabels.map
          (fun name => { className := name, probability := 0 }),
        isLoadingModel := false }
    | .failure =>
      { s with error := some modelErrorMsg, isLoadingModel := false }

/-- Outcome of the awaited `navigator.mediaDevices.getUserMedia` call: a
granted stream, or a rejection (permission denied / device failure). -/
inductive CaptureOutcome where
  | granted (stream : CamStream)
  | denied
deriving DecidableEq, Repr

/-- `startWebcam` from `App.tsx` lines 54-75.  Returns the new state paired
with a flag recording whether a permission request (`getUserMedia`) was
issued.  The guard on line 55 returns before any state change when the
camera is already active or already starting.  Otherwise the starting flag
is set and the error cleared, the permission request is issued, and on
grant the stream is attached and (when the video element exists,
`videoRefPresent`) the session is marked active after metadata loads; on
denial the capture error is set.  The starting flag is cleared on every
exit path (the `finally` block). -/
def startWebcam (outcome : CaptureOutcome) (videoRefPresent : Bool)
    (s : AppState) : AppState × Bool :=
  if s.webcamActive || s.isStartingWebcam then (s, false)
  else
    let s1 := { s with isStartingWebcam := true, error := none }
    match outcome with
    | .granted stream =>
      if videoRefPresent then
        ({ s1 with
            videoStream := some stream,
            webcamActive := true,
            isStartingWebcam := false }, true)
      else
        ({ s1 with isStartingWebcam := false }, true)
    | .denied =>
      ({ s1 with error := some captureErrorMsg, isStartingWebcam := false }, true)

/-- Outcome of the awaited `modelRef.current.predict(videoRef.current,
true)` call: a resolved prediction list, or a rejection. -/
inductive PredictOutcome where
  | ok (result : List Prediction)
  | rejected
deriving DecidableEq, Repr

/-- One invocation of `predictLoop` from `App.tsx` lines 77-85.  Returns
the new state paired with a flag recording whether
`requestAnimationFrame(predictLoop)` was reached (rescheduling, which
stores the fresh id `newId`).  When the guard on line 78 holds (a model
handle exists, the video element exists, and `readyState >= 3`) the predict
call is awaited: a resolved result is published and the loop reschedules;
a rejection propagates out of the async function before line 84, so no
reschedule happens.  When the guard fails, the loop reschedules without
predicting. -/
def predictLoop (videoRefPresent : Bool) (readyState : Nat)
    (outcome : PredictOutcome) (newId : Nat) (s : AppState) :
    AppState × Bool :=
  if s.modelRef.isSome && videoRefPresent && decide (readyState ≥ 3) then
    match outcome with
    | .ok result => ({ s with predictions := result, rafId := newId }, true)
    | .rejected => (s, false)
  else
    ({ s with rafId := newId }, true)

/-- Body of the effect at `App.tsx` lines 91-94: schedule the first
animation frame only when the camera is active and a model handle exists. -/
def startPredictEffect (newId : Nat) (s : AppState) : AppState :=
  if s.webcamActive && s.modelRef.isSome then { s with rafId := newId } else s

/-- Cleanup of the effect at `App.tsx` lines 95-99:
`cancelAnimationFrame` on the stored id when it is truthy (non-zero). -/
def rafCleanup (s : AppState) : AppState :=
  if s.rafId ≠ 0 then { s with rafId := 0 } else s

/-- `track.stop()` on one media track. -/
def stopTrack (t : MediaTrack) : MediaTrack := { t with stopped := true }

/-- Cleanup of the effect at `App.tsx` lines 102-109: when a stream is
attached to the video element, call `stop()` on each of its tracks. -/
def trackCleanup (s : AppState) : AppState :=
  match s.videoStream with
  | some stream =>
    { s with videoStream := some { tracks := stream.tracks.map stopTrack } }
  | none => s

/-- Component teardown: React runs the effect cleanups in declaration
order, so the animation-frame cancel (lines 95-99) runs before the track
cleanup (lines 102-109). -/
def teardown (s : AppState) : AppState := trackCleanup (rafCleanup s)

/-- `topPrediction` from `App.tsx` lines 111-114: a left fold (`reduce`)
over the prediction list, seeded with `{ className: "", probability: 0 }`,
keeping the accumulator only when its probability is strictly greater than
the current entry's. -/
def topPrediction (predictions : List Prediction) : Prediction :=
  predictions.foldl
    (fun prev current =>
      if prev.probability > current.probability then prev else current)
    { className := "", probability := 0 }

/-- The `isTopPrediction` flag computed for each rendered entry at
`App.tsx` line 166: `p.probability > 0.6 && p.className ===
topPrediction.className`. -/
def isTopPrediction (p : Prediction) (predictions : List Prediction) : Bool :=
  decide (p.probability > 6/10) &&
    (p.className == (topPrediction predictions).className)

/-- ECMA-262 semantics of `Number.prototype.toFixed(0)` on an exact value:
the integer nearest to `x`, the larger one when two are equally near,
which is `⌊x + 1/2⌋`. -/
def toFixed0 (x : ℚ) : ℤ := ⌊x + 1/2⌋

/-- `percentage` from `PredictionBar.tsx` line 10:
`(prediction.probability * 100).toFixed(0)`, as the displayed integer. -/
def percentage (probability : ℚ) : ℤ := toFixed0 (probability * 100)

/-- The percentage string rendered by `PredictionBar.tsx`: the decimal
rendering of `percentage`. -/
def percentageStr (probability : ℚ) : String := toString (percentage probability)

/-- Observable events of one page session, each carrying the outcome of
the host interaction it awaits.  A `frame` event is the host firing a
scheduled animation-frame callback; it only invokes `predictLoop` when a
callback is actually pending (`rafId ≠ 0`). -/
inductive Event where
  | load (tmImagePresent tfPresent : Bool) (outcome : LoadOutcome)
  | start (outcome : CaptureOutcome) (videoRefPresent : Bool)
  | effectStart (newId : Nat)
  | effectCleanup
  | frame (videoRefPresent : Bool) (readyState : Nat)
      (outcome : PredictOutcome) (newId : Nat)
deriving DecidableEq, Repr

/-- One step of the session: dispatch an event to the handler it models. -/
def step (s : AppState) : Event → AppState
  | .load tm tf o => loadModel tm tf o s
  | .start o vp => (startWebcam o vp s).1
  | .effectStart newId => startPredictEffect newId s
  | .effectCleanup => rafCleanup s
  | .frame vp rs o newId =>
    if s.rafId ≠ 0 then (predictLoop vp rs o newId s).1 else s

/-- The initial state of the component: loading flag set by the first
`useState`, everything else empty (`App.tsx` lines 17-25). -/
def initialState : AppState :=
  { isLoadingModel := true
    isStartingWebcam := false
    webcamActive := false
    predictions := []
    error := none
    modelRef := none
    videoStream := none
    rafId := 0 }

/-- Run a session: fold the events over the initial state. -/
def run (events : List Event) : AppState := events.foldl step initialState

end Detectolhat

namespace Detectolhat

/-! Helper lemmas about the `reduce` fold of `topPrediction`. -/

/-- The fold of `topPrediction` never decreases the accumulator's probability. -/
theorem topFold_acc_le (l : List Prediction) (acc : Prediction) :
    acc.probability ≤
      (l.foldl (fun prev current =>
        if prev.probability > current.probability then prev else current)
        acc).probability := by
  induction l generalizing acc with
  | nil => exact le_refl _
  | cons x l ih =>
    simp only [List.foldl_cons]
    refine le_trans ?_ (ih _)
    by_cases h : acc.probability > x.probability
    · simp only [if_pos h]
      exact le_refl _
    · simp only [if_neg h]
      exact le_of_not_lt h

/-- The fold of `topPrediction` dominates every listed probability. -/
theorem topFold_mem_le (l : List Prediction) (acc : Prediction) :
    ∀ p ∈ l, p.probability ≤
      (l.foldl (fun prev current =>
        if prev.probability > current.probability then prev else current)
        acc).probability := by
  induction l generalizing acc with
  | nil => intro p hp; cases hp
  | cons x l ih =>
    intro p hp
    simp only [List.foldl_cons]
    rcases List.mem_cons.mp hp with rfl | hp
    · refine le_trans ?_ (topFold_acc_le l _)
      by_cases h : acc.probability > p.probability
      · simp only [if_pos h]
        exact le_of_lt h
      · simp only [if_neg h]
        exact le_refl _
    · exact ih _ p hp

/-- Claim C1 counterexample: on the predictions [(A,0.3),(B,0.7),(C,0.7)] the
code selects C, not B — the `reduce` keeps the accumulator only on a strict
comparison, so ties resolve to the later entry, contradicting the claimed
first-seen tie-break. -/
theorem c1_counterexample :
    (topPrediction [⟨"A", 3/10⟩, ⟨"B", 7/10⟩, ⟨"C", 7/10⟩]).className = "C" ∧
    ¬(topPrediction [⟨"A", 3/10⟩, ⟨"B", 7/10⟩, ⟨"C", 7/10⟩]).className = "B" := by
  constructor
  · norm_num [topPrediction]
  · norm_num [topPrediction]
    decide

/-- Claim C1 (amended): leading-class selection picks an entry with the
greatest probability, and resolves ties in favour of the LAST such entry in
list order (appending an entry whose probability is at least the current
winner's makes the appended entry the winner); in particular, for the list
[(A,0.3),(B,0.7),(C,0.7)] the selected leading class is C. -/
theorem c1_amended_theorem :
    (∀ (preds : List Prediction), ∀ p ∈ preds,
      p.probability ≤ (topPrediction preds).probability) ∧
    (∀ (preds : List Prediction) (q : Prediction),
      topPrediction (preds ++ [q]) =
        if (topPrediction preds).probability > q.probability
        then topPrediction preds else q) ∧
    (topPrediction [⟨"A", 3/10⟩, ⟨"B", 7/10⟩, ⟨"C", 7/10⟩]).className = "C" := by
  refine ⟨?_, ?_, ?_⟩
  · intro preds p hp
    exact topFold_mem_le preds _ p hp
  · intro preds q
    simp [topPrediction, List.foldl_append]
  · norm_num [topPrediction]

/-- Claim C1 (amended) witness at the concrete list of the claim. -/
theorem c1_amended_witness :
    (⟨"B", 7/10⟩ : Prediction).probability ≤
      (topPrediction [⟨"A", 3/10⟩, ⟨"B", 7/10⟩, ⟨"C", 7/10⟩]).probability ∧
    (topPrediction [⟨"A", 3/10⟩, ⟨"B", 7/10⟩, ⟨"C", 7/10⟩]).className = "C" :=
  ⟨c1_amended_theorem.1 _ ⟨"B", 7/10⟩ (by simp), c1_amended_theorem.2.2⟩

end Detectolhat

namespace Detectolhat

/-- Claim C2 counterexample: with a model handle present, the video element
present and ready, and the predict call rejecting, the loop does not reach
the `requestAnimationFrame` line, so it does not reschedule — contradicting
the claimed rescheduling regardless of success or failure. -/
theorem c2_counterexample :
    (predictLoop true 3 PredictOutcome.rejected 2
      { initialState with
          webcamActive := true
          modelRef := some ⟨["cat", "dog"]⟩
          rafId := 1 }).2 = false := rfl

/-- Claim C2 (amended): after each per-frame step, the loop reschedules via
the host's per-frame callback facility exactly when it is not the case that
the inference guard held and the inference call rejected — i.e. whenever the
guard skipped inference or the inference call resolved; and whenever it
reschedules, the fresh callback id is stored.  A rejected inference call
escapes the async body before the reschedule line and terminates the loop. -/
theorem c2_amended_theorem :
    ∀ (vp : Bool) (rs newId : Nat) (o : PredictOutcome) (s : AppState),
      ((predictLoop vp rs o newId s).2 = true ↔
        ¬(s.modelRef.isSome = true ∧ vp = true ∧ 3 ≤ rs ∧
          o = PredictOutcome.rejected)) ∧
      ((predictLoop vp rs o newId s).2 = true →
        (predictLoop vp rs o newId s).1.rafId = newId) := by
  intro vp rs newId o s
  cases vp with
  | false => cases o <;> simp [predictLoop]
  | true =>
    by_cases h1 : s.modelRef.isSome = true
    · by_cases h3 : 3 ≤ rs
      · cases o <;> simp [predictLoop, h1, h3, ge_iff_le]
      · cases o <;> simp [predictLoop, h1, h3, ge_iff_le]
    · simp only [Bool.not_eq_true] at h1
      cases o <;> simp [predictLoop, h1]

/-- Claim C2 (amended) witness: a successful predict step reschedules and
stores the fresh callback id. -/
theorem c2_amended_witness :
    (predictLoop true 3 (PredictOutcome.ok [⟨"cat", 1⟩]) 7
      { initialState with modelRef := some ⟨["cat"]⟩ }).2 = true ∧
    (predictLoop true 3 (PredictOutcome.ok [⟨"cat", 1⟩]) 7
      { initialState with modelRef := some ⟨["cat"]⟩ }).1.rafId = 7 := by
  have h := c2_amended_theorem true 3 7 (PredictOutcome.ok [⟨"cat", 1⟩])
    { initialState with modelRef := some ⟨["cat"]⟩ }
  have hr : (predictLoop true 3 (PredictOutcome.ok [⟨"cat", 1⟩]) 7
      { initialState with modelRef := some ⟨["cat"]⟩ }).2 = true :=
    h.1.mpr (by simp)
  exact ⟨hr, h.2 hr⟩

/-! Helper lemmas for teardown. -/

/-- After the animation-frame cleanup, no callback is pending. -/
theorem rafCleanup_rafId (s : AppState) : (rafCleanup s).rafId = 0 := by
  unfold rafCleanup
  split
  · rfl
  · omega

/-- The animation-frame cleanup does not touch the attached stream. -/
theorem rafCleanup_videoStream (s : AppState) :
    (rafCleanup s).videoStream = s.videoStream := by
  unfold rafCleanup
  split <;> rfl

/-- The track cleanup on a state with an attached stream stops each track. -/
theorem trackCleanup_of_some (s : AppState) (stream : CamStream)
    (h : s.videoStream = some stream) :
    trackCleanup s =
      { s with videoStream := some { tracks := stream.tracks.map stopTrack } } := by
  unfold trackCleanup
  rw [h]

/-- Claim C3: on teardown while a capture session is active, every media
track held by the session receives a stop call, the pending per-frame
callback is cancelled, and a frame event fired against the torn-down state
is a no-op, so no inference call is scheduled or fires after teardown. -/
theorem c3_teardown_theorem (s : AppState) (stream : CamStream)
    (h : s.videoStream = some stream) :
    (teardown s).videoStream = some { tracks := stream.tracks.map stopTrack } ∧
    (∀ t ∈ stream.tracks.map stopTrack, t.stopped = true) ∧
    (teardown s).rafId = 0 ∧
    (∀ (vp : Bool) (rs : Nat) (o : PredictOutcome) (newId : Nat),
      step (teardown s) (Event.frame vp rs o newId) = teardown s) := by
  have hv : (rafCleanup s).videoStream = some stream := by
    rw [rafCleanup_videoStream]
    exact h
  have hteq : teardown s =
      { rafCleanup s with
          videoStream := some { tracks := stream.tracks.map stopTrack } } := by
    unfold teardown
    exact trackCleanup_of_some _ _ hv
  have hraf : (teardown s).rafId = 0 := by
    rw [hteq]
    exact rafCleanup_rafId s
  refine ⟨?_, ?_, hraf, ?_⟩
  · rw [hteq]
  · intro t ht
    rcases List.mem_map.mp ht with ⟨a, _, rfl⟩
    rfl
  · intro vp rs o newId
    simp [step, hraf]

/-- Claim C3 witness at a concrete two-track session with a pending frame. -/
theorem c3_teardown_witness :
    (teardown { initialState with
        webcamActive := true
        videoStream := some ⟨[⟨1, false⟩, ⟨2, false⟩]⟩
        rafId := 9 }).videoStream = some ⟨[⟨1, true⟩, ⟨2, true⟩]⟩ ∧
    (teardown { initialState with
        webcamActive := true
        videoStream := some ⟨[⟨1, false⟩, ⟨2, false⟩]⟩
        rafId := 9 }).rafId = 0 := by
  have h := c3_teardown_theorem
    { initialState with
        webcamActive := true
        videoStream := some ⟨[⟨1, false⟩, ⟨2, false⟩]⟩
        rafId := 9 }
    ⟨[⟨1, false⟩, ⟨2, false⟩]⟩ rfl
  exact ⟨by rw [h.1]; rfl, h.2.2.1⟩

end Detectolhat

namespace Detectolhat

/-- Claim C4: a rendered prediction is highlighted as the leading class
exactly when its raw probability strictly exceeds 0.6 and its class name is
that of the selected leading class; a probability of exactly 0.60 is not
highlighted while 0.61 is; and the comparison uses the raw probability, not
the rounded percentage (0.604 is highlighted although its displayed
percentage is 60, which does not exceed 60). -/
theorem c4_highlight_theorem :
    (∀ (p : Prediction) (preds : List Prediction),
      isTopPrediction p preds = true ↔
        6/10 < p.probability ∧
          p.className = (topPrediction preds).className) ∧
    isTopPrediction ⟨"B", 61/100⟩ [⟨"A", 3/10⟩, ⟨"B", 61/100⟩] = true ∧
    isTopPrediction ⟨"B", 60/100⟩ [⟨"A", 3/10⟩, ⟨"B", 60/100⟩] = false ∧
    isTopPrediction ⟨"B", 604/1000⟩ [⟨"A", 3/10⟩, ⟨"B", 604/1000⟩] = true ∧
    percentage (604/1000) = 60 := by
  refine ⟨?_, ?_, ?_, ?_, ?_⟩
  · intro p preds
    simp [isTopPrediction, gt_iff_lt, Bool.and_eq_true, decide_eq_true_eq,
      beq_iff_eq]
  · norm_num [isTopPrediction, topPrediction]
  · norm_num [isTopPrediction, topPrediction]
  · norm_num [isTopPrediction, topPrediction]
  · norm_num [percentage, toFixed0, Int.floor_eq_iff]

/-- Claim C5: for every probability in [0,1], the displayed percentage is an
integer between 0 and 100, and it equals n exactly when probability*100 lies
in [n - 1/2, n + 1/2) — rounding to the nearest integer with halves rounded
up, not truncation. -/
theorem c5_percentage_theorem (p : ℚ) (h0 : 0 ≤ p) (h1 : p ≤ 1) :
    0 ≤ percentage p ∧ percentage p ≤ 100 ∧
    (∀ n : ℤ, percentage p = n ↔
      ((n : ℚ) - 1/2 ≤ p * 100 ∧ p * 100 < (n : ℚ) + 1/2)) := by
  refine ⟨?_, ?_, ?_⟩
  · unfold percentage toFixed0
    rw [Int.le_floor]
    push_cast
    linarith
  · have hlt : percentage p < 101 := by
      unfold percentage toFixed0
      rw [Int.floor_lt]
      push_cast
      linarith
    omega
  · intro n
    unfold percentage toFixed0
    rw [Int.floor_eq_iff]
    constructor
    · rintro ⟨a, b⟩
      constructor <;> linarith
    · rintro ⟨a, b⟩
      constructor <;> linarith

/-- Claim C5 witness: probability 0.005 scales to the half 0.5, which is
rounded up to 1 (truncation would display 0). -/
theorem c5_percentage_witness :
    (0 : ℚ) ≤ 1/200 ∧ (1/200 : ℚ) ≤ 1 ∧
    percentage (1/200) = 1 ∧ ¬percentage (1/200) = 0 := by
  have h := c5_percentage_theorem (1/200) (by norm_num) (by norm_num)
  refine ⟨by norm_num, by norm_num, (h.2.2 1).mpr (by norm_num), ?_⟩
  intro hc
  have hq := (h.2.2 0).mp hc
  norm_num at hq

/-- Claim C6: when the camera is already active or already starting,
`startWebcam` returns immediately: the state is unchanged and no permission
request is issued; in particular the starting flag is never re-entered from
the active state. -/
theorem c6_idempotent_theorem (s : AppState) (outcome : CaptureOutcome)
    (videoRefPresent : Bool)
    (h : s.webcamActive = true ∨ s.isStartingWebcam = true) :
    startWebcam outcome videoRefPresent s = (s, false) := by
  unfold startWebcam
  rcases h with h | h <;> simp [h]

/-- Claim C6 witness at a concrete active session. -/
theorem c6_idempotent_witness :
    startWebcam CaptureOutcome.denied true
        { initialState with webcamActive := true } =
      ({ initialState with webcamActive := true }, false) :=
  c6_idempotent_theorem _ _ _ (Or.inl rfl)

/-- Claim C7: when the model-runtime capability (`window.tmImage` or
`window.tf`) is absent, `loadModel` sets the dedicated dependency error —
non-null and distinct from the capture-failure message — clears the loading
flag, and stores no model handle. -/
theorem c7_deps_missing_theorem (tm tf : Bool) (outcome : LoadOutcome)
    (s : AppState) (hcap : tm = false ∨ tf = false)
    (hm : s.modelRef = none) :
    (loadModel tm tf outcome s).error = some depsErrorMsg ∧
    depsErrorMsg ≠ captureErrorMsg ∧
    (loadModel tm tf outcome s).isLoadingModel = false ∧
    (loadModel tm tf outcome s).modelRef = none := by
  refine ⟨?_, by decide, ?_, ?_⟩ <;>
    rcases hcap with h | h <;> simp [loadModel, h, hm]

/-- Claim C7 witness with both capabilities absent. -/
theorem c7_deps_missing_witness :
    (loadModel false false LoadOutcome.failure initialState).error =
      some depsErrorMsg ∧
    (loadModel false false LoadOutcome.failure initialState).isLoadingModel =
      false ∧
    (loadModel false false LoadOutcome.failure initialState).modelRef = none := by
  have h := c7_deps_missing_theorem false false LoadOutcome.failure
    initialState (Or.inl rfl) rfl
  exact ⟨h.1, h.2.2.1, h.2.2.2⟩

/-- Claim C8: when model loading succeeds with class labels L, the published
initial prediction list is exactly one (label, 0) entry per label of L in
the model's order; in particular labels ["cat","dog"] yield
[(cat,0),(dog,0)]. -/
theorem c8_initial_predictions_theorem :
    (∀ (labels : List String) (s : AppState),
      (loadModel true true (LoadOutcome.success ⟨labels⟩) s).predictions =
        labels.map (fun name => { className := name, probability := 0 })) ∧
    (loadModel true true (LoadOutcome.success ⟨["cat", "dog"]⟩)
        initialState).predictions = [⟨"cat", 0⟩, ⟨"dog", 0⟩] := by
  constructor
  · intro labels s
    rfl
  · rfl

/-- Claim C9: a non-no-op `startWebcam` call clears the error field, so on a
successful capture any previously displayed error (including a model-load
error) is erased, no new error being set; the permission request is issued. -/
theorem c9_error_reset_theorem (s : AppState) (stream : CamStream)
    (videoRefPresent : Bool) (ha : s.webcamActive = false)
    (hs : s.isStartingWebcam = false) :
    (startWebcam (CaptureOutcome.granted stream) videoRefPresent s).1.error =
      none ∧
    (startWebcam (CaptureOutcome.granted stream) videoRefPresent s).2 = true := by
  unfold startWebcam
  rw [ha, hs]
  cases videoRefPresent <;> simp

/-- Claim C9 witness: a state displaying the model-load error has it erased
by a successful capture. -/
theorem c9_error_reset_witness :
    (startWebcam (CaptureOutcome.granted ⟨[⟨1, false⟩]⟩) true
        { initialState with
            error := some modelErrorMsg
            isLoadingModel := false }).1.error = none :=
  (c9_error_reset_theorem _ _ _ rfl rfl).1

end Detectolhat

namespace Detectolhat

/-! Helper lemmas for the session-level invariant of claim C10. -/

/-- A `predictLoop` step never changes the stored model handle. -/
theorem predictLoop_preserves_modelRef (vp : Bool) (rs : Nat)
    (o : PredictOutcome) (newId : Nat) (s : AppState) :
    (predictLoop vp rs o newId s).1.modelRef = s.modelRef := by
  unfold predictLoop
  split
  · cases o <;> rfl
  · rfl

/-- `startWebcam` never changes the model handle, the published predictions,
or the pending callback id. -/
theorem startWebcam_preserves (o : CaptureOutcome) (vp : Bool) (s : AppState) :
    (startWebcam o vp s).1.modelRef = s.modelRef ∧
    (startWebcam o vp s).1.predictions = s.predictions ∧
    (startWebcam o vp s).1.rafId = s.rafId := by
  unfold startWebcam
  split
  · exact ⟨rfl, rfl, rfl⟩
  · cases o with
    | granted stream => cases vp <;> exact ⟨rfl, rfl, rfl⟩
    | denied => exact ⟨rfl, rfl, rfl⟩

/-- Every session step preserves the invariant that without a model handle
nothing has been published and no frame is pending. -/
theorem step_no_model (s : AppState) (e : Event)
    (h : s.modelRef = none → s.predictions = [] ∧ s.rafId = 0) :
    (step s e).modelRef = none →
      (step s e).predictions = [] ∧ (step s e).rafId = 0 := by
  cases e with
  | load tm tf o =>
    simp only [step]
    unfold loadModel
    split
    · exact h
    · cases o with
      | success model =>
        intro hm
        exact Option.noConfusion hm
      | failure => exact h
  | start o vp =>
    have hp := startWebcam_preserves o vp s
    simp only [step]
    rw [hp.1, hp.2.1, hp.2.2]
    exact h
  | effectStart newId =>
    simp only [step]
    unfold startPredictEffect
    split
    · rename_i hg
      intro hm
      have hm' : s.modelRef = none := hm
      rw [Bool.and_eq_true] at hg
      rw [hm'] at hg
      simp at hg
    · exact h
  | effectCleanup =>
    simp only [step]
    unfold rafCleanup
    split
    · intro hm
      exact ⟨(h hm).1, rfl⟩
    · exact h
  | frame vp rs o newId =>
    simp only [step]
    split
    · rename_i hraf
      intro hm
      have hm' : s.modelRef = none := by
        rw [← predictLoop_preserves_modelRef vp rs o newId s]
        exact hm
      exact absurd (h hm').2 hraf
    · exact h

/-- The invariant of `step_no_model` propagates along any event list. -/
theorem run_no_model_aux (events : List Event) :
    ∀ s : AppState, (s.modelRef = none → s.predictions = [] ∧ s.rafId = 0) →
      ((events.foldl step s).modelRef = none →
        (events.foldl step s).predictions = [] ∧
          (events.foldl step s).rafId = 0) := by
  induction events with
  | nil => intro s h; exact h
  | cons e es ih =>
    intro s h
    simp only [List.foldl_cons]
    exact ih (step s e) (step_no_model s e h)

/-- Claim C10: the per-frame poll is started only when the camera is active
and a model handle exists; and along any session in which no model handle
was ever stored (e.g. model loading failed), no frame callback is ever
pending and the published prediction list stays empty. -/
theorem c10_no_model_no_poll_theorem :
    (∀ (s : AppState) (newId : Nat),
      s.webcamActive = false ∨ s.modelRef = none →
        startPredictEffect newId s = s) ∧
    (∀ events : List Event,
      (run events).modelRef = none →
        (run events).predictions = [] ∧ (run events).rafId = 0) := by
  constructor
  · intro s newId h
    unfold startPredictEffect
    rcases h with h | h <;> rw [h] <;> simp
  · intro events
    exact run_no_model_aux events initialState (fun _ => ⟨rfl, rfl⟩)

/-- Claim C10 witness: a session whose model load fails, then activates the
camera, runs the scheduling effect and receives a frame tick, publishes
nothing and never has a pending callback. -/
theorem c10_no_model_no_poll_witness :
    startPredictEffect 5 initialState = initialState ∧
    (run [Event.load true true LoadOutcome.failure,
          Event.start (CaptureOutcome.granted ⟨[⟨1, false⟩]⟩) true,
          Event.effectStart 5,
          Event.frame true 4 (PredictOutcome.ok [⟨"cat", 1⟩]) 7]).predictions =
      [] ∧
    (run [Event.load true true LoadOutcome.failure,
          Event.start (CaptureOutcome.granted ⟨[⟨1, false⟩]⟩) true,
          Event.effectStart 5,
          Event.frame true 4 (PredictOutcome.ok [⟨"cat", 1⟩]) 7]).rafId = 0 := by
  have h2 := c10_no_model_no_poll_theorem.2
    [Event.load true true LoadOutcome.failure,
     Event.start (CaptureOutcome.granted ⟨[⟨1, false⟩]⟩) true,
     Event.effectStart 5,
     Event.frame true 4 (PredictOutcome.ok [⟨"cat", 1⟩]) 7] rfl
  exact ⟨c10_no_model_no_poll_theorem.1 initialState 5 (Or.inl rfl), h2.1, h2.2⟩

end Detectolhat
